import Mathlib

/-!
Shallow embedding of the Simplex-noise core of the `noice` crate
(`src/noise_fns/generators/simplex.rs`), with IEEE-754 `f64` values modelled
as real numbers (`ℝ`), fixed-arity arrays `[T; n]` as iterated products, and
`isize`/`u8` lattice and rank values as `ℤ`/`ℕ`.  The collaborators
(`math`, `gradient`, `permutationtable`) are declared outside the excerpt and
are modelled from the spec where noted.
-/

/-! ### Vector utility (`math` module)

Modelled from the spec: the `math` module (elementwise add, subtract, dot
product, component-wise map, and integer/float conversions, arity-specialized)
is a collaborator whose source is not part of the excerpt; the spec describes
it as pure, branch-free elementwise arithmetic.  `to_isize*` models the
`f64 -> isize` cast; it is only ever applied to already-floored values, where
the truncating cast agrees with the floor. -/

def add2 (a b : ℝ × ℝ) : ℝ × ℝ := (a.1 + b.1, a.2 + b.2)

def sub2 (a b : ℝ × ℝ) : ℝ × ℝ := (a.1 - b.1, a.2 - b.2)

def dot2 (a b : ℝ × ℝ) : ℝ := a.1 * b.1 + a.2 * b.2

def map2 (a : ℝ × ℝ) (f : ℝ → ℝ) : ℝ × ℝ := (f a.1, f a.2)

def iadd2 (a b : ℤ × ℤ) : ℤ × ℤ := (a.1 + b.1, a.2 + b.2)

noncomputable def to_isize2 (a : ℝ × ℝ) : ℤ × ℤ := (⌊a.1⌋, ⌊a.2⌋)

def to_f64_2 (a : ℤ × ℤ) : ℝ × ℝ := ((a.1 : ℝ), (a.2 : ℝ))

def add3 (a b : ℝ × ℝ × ℝ) : ℝ × ℝ × ℝ :=
  (a.1 + b.1, a.2.1 + b.2.1, a.2.2 + b.2.2)

def sub3 (a b : ℝ × ℝ × ℝ) : ℝ × ℝ × ℝ :=
  (a.1 - b.1, a.2.1 - b.2.1, a.2.2 - b.2.2)

def dot3 (a b : ℝ × ℝ × ℝ) : ℝ := a.1 * b.1 + a.2.1 * b.2.1 + a.2.2 * b.2.2

def map3 (a : ℝ × ℝ × ℝ) (f : ℝ → ℝ) : ℝ × ℝ × ℝ := (f a.1, f a.2.1, f a.2.2)

def iadd3 (a b : ℤ × ℤ × ℤ) : ℤ × ℤ × ℤ :=
  (a.1 + b.1, a.2.1 + b.2.1, a.2.2 + b.2.2)

noncomputable def to_isize3 (a : ℝ × ℝ × ℝ) : ℤ × ℤ × ℤ := (⌊a.1⌋, ⌊a.2.1⌋, ⌊a.2.2⌋)

def to_f64_3 (a : ℤ × ℤ × ℤ) : ℝ × ℝ × ℝ :=
  ((a.1 : ℝ), (a.2.1 : ℝ), (a.2.2 : ℝ))

def add4 (a b : ℝ × ℝ × ℝ × ℝ) : ℝ × ℝ × ℝ × ℝ :=
  (a.1 + b.1, a.2.1 + b.2.1, a.2.2.1 + b.2.2.1, a.2.2.2 + b.2.2.2)

def sub4 (a b : ℝ × ℝ × ℝ × ℝ) : ℝ × ℝ × ℝ × ℝ :=
  (a.1 - b.1, a.2.1 - b.2.1, a.2.2.1 - b.2.2.1, a.2.2.2 - b.2.2.2)

def dot4 (a b : ℝ × ℝ × ℝ × ℝ) : ℝ :=
  a.1 * b.1 + a.2.1 * b.2.1 + a.2.2.1 * b.2.2.1 + a.2.2.2 * b.2.2.2

def map4 (a : ℝ × ℝ × ℝ × ℝ) (f : ℝ → ℝ) : ℝ × ℝ × ℝ × ℝ :=
  (f a.1, f a.2.1, f a.2.2.1, f a.2.2.2)

def iadd4 (a b : ℤ × ℤ × ℤ × ℤ) : ℤ × ℤ × ℤ × ℤ :=
  (a.1 + b.1, a.2.1 + b.2.1, a.2.2.1 + b.2.2.1, a.2.2.2 + b.2.2.2)

noncomputable def to_isize4 (a : ℝ × ℝ × ℝ × ℝ) : ℤ × ℤ × ℤ × ℤ :=
  (⌊a.1⌋, ⌊a.2.1⌋, ⌊a.2.2.1⌋, ⌊a.2.2.2⌋)

def to_f64_4 (a : ℤ × ℤ × ℤ × ℤ) : ℝ × ℝ × ℝ × ℝ :=
  ((a.1 : ℝ), (a.2.1 : ℝ), (a.2.2.1 : ℝ), (a.2.2.2 : ℝ))

/-- `f64::floor`, modelled on `ℝ` as the floor followed by the cast back. -/
noncomputable def floorR (x : ℝ) : ℝ := ((⌊x⌋ : ℤ) : ℝ)

/-! ### Gradient tables (`gradient` module)

Modelled from the spec: fixed constant per-arity lookup tables of direction
vectors; the spec fixes 8 directions for 2D and 32 for 4D, leaves the 3D
cardinality as "a fixed larger set" (12 edge directions here) and leaves the
exact vector contents an implementation choice.  The fallible `get*?`
variants return `none` exactly on an out-of-range index, modelling the
index-out-of-bounds panic of an array lookup; `get*` is the lookup on the
valid range (out-of-range collapsed to an arbitrary default, never exercised
under the permutation-table range invariant). -/

namespace gradient

def get2? (i : ℕ) : Option (ℝ × ℝ) :=
  match i with
  | 0 => some (1, 1)
  | 1 => some (-1, 1)
  | 2 => some (1, -1)
  | 3 => some (-1, -1)
  | 4 => some (1, 0)
  | 5 => some (-1, 0)
  | 6 => some (0, 1)
  | 7 => some (0, -1)
  | _ => none

def get2 (i : ℕ) : ℝ × ℝ := (get2? i).getD (0, 0)

def get3? (i : ℕ) : Option (ℝ × ℝ × ℝ) :=
  match i with
  | 0 => some (1, 1, 0)
  | 1 => some (-1, 1, 0)
  | 2 => some (1, -1, 0)
  | 3 => some (-1, -1, 0)
  | 4 => some (1, 0, 1)
  | 5 => some (-1, 0, 1)
  | 6 => some (1, 0, -1)
  | 7 => some (-1, 0, -1)
  | 8 => some (0, 1, 1)
  | 9 => some (0, -1, 1)
  | 10 => some (0, 1, -1)
  | 11 => some (0, -1, -1)
  | _ => none

def get3 (i : ℕ) : ℝ × ℝ × ℝ := (get3? i).getD (0, 0, 0)

def get4? (i : ℕ) : Option (ℝ × ℝ × ℝ × ℝ) :=
  match i with
  | 0 => some (0, 1, 1, 1)
  | 1 => some (0, -1, 1, 1)
  | 2 => some (0, 1, -1, 1)
  | 3 => some (0, -1, -1, 1)
  | 4 => some (0, 1, 1, -1)
  | 5 => some (0, -1, 1, -1)
  | 6 => some (0, 1, -1, -1)
  | 7 => some (0, -1, -1, -1)
  | 8 => some (1, 0, 1, 1)
  | 9 => some (-1, 0, 1, 1)
  | 10 => some (1, 0, -1, 1)
  | 11 => some (-1, 0, -1, 1)
  | 12 => some (1, 0, 1, -1)
  | 13 => some (-1, 0, 1, -1)
  | 14 => some (1, 0, -1, -1)
  | 15 => some (-1, 0, -1, -1)
  | 16 => some (1, 1, 0, 1)
  | 17 => some (-1, 1, 0, 1)
  | 18 => some (1, -1, 0, 1)
  | 19 => some (-1, -1, 0, 1)
  | 20 => some (1, 1, 0, -1)
  | 21 => some (-1, 1, 0, -1)
  | 22 => some (1, -1, 0, -1)
  | 23 => some (-1, -1, 0, -1)
  | 24 => some (1, 1, 1, 0)
  | 25 => some (-1, 1, 1, 0)
  | 26 => some (1, -1, 1, 0)
  | 27 => some (-1, -1, 1, 0)
  | 28 => some (1, 1, -1, 0)
  | 29 => some (-1, 1, -1, 0)
  | 30 => some (1, -1, -1, 0)
  | 31 => some (-1, -1, -1, 0)
  | _ => none

def get4 (i : ℕ) : ℝ × ℝ × ℝ × ℝ := (get4? i).getD (0, 0, 0, 0)

end gradient

/-! ### Permutation table (`permutationtable` module)

Modelled from the spec: `PermutationTable` is a collaborator declared outside
the excerpt; the spec constrains it to being an immutable structure derived
deterministically from a 32-bit seed, with pure, total, O(1) per-arity
lookups from integer lattice coordinates (negative components included) to
gradient indices that are always in range for the arity-matching gradient
table.  The concrete hashing scheme is left open by the spec; a
representative deterministic, seed-sensitive choice is used, reduced modulo
the gradient-table cardinality so that the range invariant holds by
construction. -/

structure PermutationTable where
  seed : ℕ
deriving DecidableEq

namespace PermutationTable

def new (seed : ℕ) : PermutationTable := ⟨seed⟩

def get2 (t : PermutationTable) (c : ℤ × ℤ) : ℕ :=
  (t.seed + (c.1 + 31 * c.2).natAbs) % 8

def get3 (t : PermutationTable) (c : ℤ × ℤ × ℤ) : ℕ :=
  (t.seed + (c.1 + 31 * c.2.1 + 961 * c.2.2).natAbs) % 12

def get4 (t : PermutationTable) (c : ℤ × ℤ × ℤ × ℤ) : ℕ :=
  (t.seed + (c.1 + 31 * c.2.1 + 961 * c.2.2.1 + 29791 * c.2.2.2).natAbs) % 32

end PermutationTable

/-! ### The `Simplex` evaluator value (from the source) -/

structure Simplex where
  seed : ℕ
  perm_table : PermutationTable
deriving DecidableEq

namespace Simplex

def DEFAULT_SEED : ℕ := 0

def new : Simplex :=
  { seed := DEFAULT_SEED, perm_table := PermutationTable.new DEFAULT_SEED }

/-- `impl Default for Simplex`: `default()` delegates to `new()`. -/
def defaultSimplex : Simplex := new

/-- `Seedable::set_seed`: fast path returns `self` when the seed is unchanged,
otherwise builds a new value with a freshly derived permutation table. -/
def set_seed (self : Simplex) (seed : ℕ) : Simplex :=
  if self.seed = seed then self
  else { seed := seed, perm_table := PermutationTable.new seed }

/-- `Seedable::seed`: the seed accessor (`fn seed(&self) -> u32`). -/
def seedAccessor (self : Simplex) : ℕ := self.seed

/-- Coherence invariant tying the stored table to the stored seed; it holds
for every `Simplex` reachable through the public constructors. -/
def Coherent (self : Simplex) : Prop :=
  self.perm_table = PermutationTable.new self.seed

instance : DecidablePred Coherent := fun e =>
  inferInstanceAs (Decidable (e.perm_table = PermutationTable.new e.seed))

end Simplex

/-! ### Skew/unskew factors (from the source) -/

noncomputable def skew_factor (n : ℕ) : ℝ :=
  (Real.sqrt ((n : ℝ) + 1) - 1) / (n : ℝ)

noncomputable def unskew_factor (n : ℕ) : ℝ :=
  (1 - 1 / Real.sqrt ((n : ℝ) + 1)) / (n : ℝ)

/-! ### 2-dimensional evaluator (`impl NoiseFn<[f64; 2]> for Simplex`) -/

namespace S2

/-- The nested `surflet` of the 2D `get`. -/
noncomputable def surflet (gradient_index : ℕ) (distance : ℝ × ℝ) : ℝ :=
  let t := 0.5 - distance.1 * distance.1 - distance.2 * distance.2
  if t < 0 then 0
  else
    let t2 := t * t
    t2 * t2 * dot2 (gradient.get2 gradient_index) distance

/-- `surflet` with the gradient vector already looked up; used by the
fallible evaluator, where the lookup itself may fail. -/
noncomputable def surfletWith (g : ℝ × ℝ) (distance : ℝ × ℝ) : ℝ :=
  let t := 0.5 - distance.1 * distance.1 - distance.2 * distance.2
  if t < 0 then 0
  else
    let t2 := t * t
    t2 * t2 * dot2 g distance

noncomputable def skew_point (point : ℝ × ℝ) (factor : ℝ) : ℝ × ℝ :=
  add2 point ((point.1 + point.2) * factor, (point.1 + point.2) * factor)

noncomputable def unskew_point (skewed_point : ℝ × ℝ) (factor : ℝ) : ℝ × ℝ :=
  sub2 skewed_point
    ((skewed_point.1 + skewed_point.2) * factor,
      (skewed_point.1 + skewed_point.2) * factor)

noncomputable def skewed_input (point : ℝ × ℝ) : ℝ × ℝ :=
  skew_point point (skew_factor 2)

noncomputable def floored (point : ℝ × ℝ) : ℤ × ℤ :=
  to_isize2 (map2 (skewed_input point) floorR)

noncomputable def cell (point : ℝ × ℝ) : ℝ × ℝ :=
  unskew_point (to_f64_2 (floored point)) (unskew_factor 2)

noncomputable def distance (point : ℝ × ℝ) : ℝ × ℝ := sub2 point (cell point)

/-- The corner traversal order, as a function of the distance vector. -/
noncomputable def offsets (d : ℝ × ℝ) : ℤ × ℤ := if d.1 > d.2 then (1, 0) else (0, 1)

noncomputable def corner2 (point : ℝ × ℝ) : ℝ × ℝ :=
  add2 (sub2 (distance point) (to_f64_2 (offsets (distance point))))
    (unskew_factor 2, unskew_factor 2)

noncomputable def corner3 (point : ℝ × ℝ) : ℝ × ℝ :=
  add2 (sub2 (distance point) (1, 1))
    (2 * unskew_factor 2, 2 * unskew_factor 2)

noncomputable def gi0 (e : Simplex) (point : ℝ × ℝ) : ℕ :=
  e.perm_table.get2 (floored point)

noncomputable def gi1 (e : Simplex) (point : ℝ × ℝ) : ℕ :=
  e.perm_table.get2 (iadd2 (floored point) (offsets (distance point)))

noncomputable def gi2 (e : Simplex) (point : ℝ × ℝ) : ℕ :=
  e.perm_table.get2 (iadd2 (floored point) (1, 1))

/-- The 2D `NoiseFn::get`. -/
noncomputable def get (e : Simplex) (point : ℝ × ℝ) : ℝ :=
  70 * (surflet (gi0 e point) (distance point)
      + surflet (gi1 e point) (corner2 point)
      + surflet (gi2 e point) (corner3 point))

/-- The 2D `get` with the gradient-table lookups made fallible: `none` models
reaching an out-of-bounds panic in the gradient lookup. -/
noncomputable def getChecked (e : Simplex) (point : ℝ × ℝ) : Option ℝ :=
  (gradient.get2? (gi0 e point)).bind fun g0 =>
    (gradient.get2? (gi1 e point)).bind fun g1 =>
      (gradient.get2? (gi2 e point)).map fun g2 =>
        70 * (surfletWith g0 (distance point)
            + surfletWith g1 (corner2 point)
            + surfletWith g2 (corner3 point))

end S2

/-! ### 3-dimensional evaluator (`impl NoiseFn<[f64; 3]> for Simplex`) -/

namespace S3

noncomputable def surflet (gradient_index : ℕ) (distance : ℝ × ℝ × ℝ) : ℝ :=
  let t := 0.5 - distance.1 * distance.1 - distance.2.1 * distance.2.1
    - distance.2.2 * distance.2.2
  if t < 0 then 0
  else
    let t2 := t * t
    t2 * t2 * dot3 (gradient.get3 gradient_index) distance

noncomputable def surfletWith (g : ℝ × ℝ × ℝ) (distance : ℝ × ℝ × ℝ) : ℝ :=
  let t := 0.5 - distance.1 * distance.1 - distance.2.1 * distance.2.1
    - distance.2.2 * distance.2.2
  if t < 0 then 0
  else
    let t2 := t * t
    t2 * t2 * dot3 g distance

noncomputable def skew_point (point : ℝ × ℝ × ℝ) (factor : ℝ) : ℝ × ℝ × ℝ :=
  add3 point
    ((point.1 + point.2.1 + point.2.2) * factor,
      (point.1 + point.2.1 + point.2.2) * factor,
      (point.1 + point.2.1 + point.2.2) * factor)

noncomputable def unskew_point (sp : ℝ × ℝ × ℝ) (factor : ℝ) : ℝ × ℝ × ℝ :=
  sub3 sp
    ((sp.1 + sp.2.1 + sp.2.2) * factor,
      (sp.1 + sp.2.1 + sp.2.2) * factor,
      (sp.1 + sp.2.1 + sp.2.2) * factor)

noncomputable def skewed_input (point : ℝ × ℝ × ℝ) : ℝ × ℝ × ℝ :=
  skew_point point (skew_factor 3)

noncomputable def floored (point : ℝ × ℝ × ℝ) : ℤ × ℤ × ℤ :=
  to_isize3 (map3 (skewed_input point) floorR)

noncomputable def cell (point : ℝ × ℝ × ℝ) : ℝ × ℝ × ℝ :=
  unskew_point (to_f64_3 (floored point)) (unskew_factor 3)

noncomputable def distance (point : ℝ × ℝ × ℝ) : ℝ × ℝ × ℝ :=
  sub3 point (cell point)

/-- The six-branch decision tree over the orderings of the three distance
components, producing `(offset1, offset2)`. -/
noncomputable def offsetPair (d : ℝ × ℝ × ℝ) : (ℤ × ℤ × ℤ) × (ℤ × ℤ × ℤ) :=
  if d.1 ≥ d.2.1 then
    if d.2.1 ≥ d.2.2 then ((1, 0, 0), (1, 1, 0))
    else if d.1 ≥ d.2.2 then ((1, 0, 0), (1, 0, 1))
    else ((0, 0, 1), (1, 0, 1))
  else if d.2.2 ≥ d.2.1 then ((0, 0, 1), (0, 1, 1))
  else if d.2.2 ≥ d.1 then ((0, 1, 0), (0, 1, 1))
  else ((0, 1, 0), (1, 1, 0))

noncomputable def offset1 (d : ℝ × ℝ × ℝ) : ℤ × ℤ × ℤ := (offsetPair d).1

noncomputable def offset2 (d : ℝ × ℝ × ℝ) : ℤ × ℤ × ℤ := (offsetPair d).2

def offset3 : ℤ × ℤ × ℤ := (1, 1, 1)

noncomputable def corner2 (point : ℝ × ℝ × ℝ) : ℝ × ℝ × ℝ :=
  add3 (sub3 (distance point) (to_f64_3 (offset1 (distance point))))
    (unskew_factor 3, unskew_factor 3, unskew_factor 3)

noncomputable def corner3 (point : ℝ × ℝ × ℝ) : ℝ × ℝ × ℝ :=
  add3 (sub3 (distance point) (to_f64_3 (offset2 (distance point))))
    (2 * unskew_factor 3, 2 * unskew_factor 3, 2 * unskew_factor 3)

noncomputable def corner4 (point : ℝ × ℝ × ℝ) : ℝ × ℝ × ℝ :=
  add3 (sub3 (distance point) (1, 1, 1))
    (3 * unskew_factor 3, 3 * unskew_factor 3, 3 * unskew_factor 3)

noncomputable def gi0 (e : Simplex) (point : ℝ × ℝ × ℝ) : ℕ :=
  e.perm_table.get3 (floored point)

noncomputable def gi1 (e : Simplex) (point : ℝ × ℝ × ℝ) : ℕ :=
  e.perm_table.get3 (iadd3 (floored point) (offset1 (distance point)))

noncomputable def gi2 (e : Simplex) (point : ℝ × ℝ × ℝ) : ℕ :=
  e.perm_table.get3 (iadd3 (floored point) (offset2 (distance point)))

noncomputable def gi3 (e : Simplex) (point : ℝ × ℝ × ℝ) : ℕ :=
  e.perm_table.get3 (iadd3 (floored point) offset3)

/-- The 3D `NoiseFn::get`. -/
noncomputable def get (e : Simplex) (point : ℝ × ℝ × ℝ) : ℝ :=
  32 * (surflet (gi0 e point) (distance point)
      + surflet (gi1 e point) (corner2 point)
      + surflet (gi2 e point) (corner3 point)
      + surflet (gi3 e point) (corner4 point))

noncomputable def getChecked (e : Simplex) (point : ℝ × ℝ × ℝ) : Option ℝ :=
  (gradient.get3? (gi0 e point)).bind fun g0 =>
    (gradient.get3? (gi1 e point)).bind fun g1 =>
      (gradient.get3? (gi2 e point)).bind fun g2 =>
        (gradient.get3? (gi3 e point)).map fun g3 =>
          32 * (surfletWith g0 (distance point)
              + surfletWith g1 (corner2 point)
              + surfletWith g2 (corner3 point)
              + surfletWith g3 (corner4 point))

end S3

/-! ### 4-dimensional evaluator (`impl NoiseFn<[f64; 4]> for Simplex`) -/

namespace S4

noncomputable def surflet (gradient_index : ℕ) (distance : ℝ × ℝ × ℝ × ℝ) : ℝ :=
  let t := 0.5 - distance.1 * distance.1 - distance.2.1 * distance.2.1
    - distance.2.2.1 * distance.2.2.1 - distance.2.2.2 * distance.2.2.2
  if t < 0 then 0
  else
    let t2 := t * t
    t2 * t2 * dot4 (gradient.get4 gradient_index) distance

noncomputable def surfletWith (g : ℝ × ℝ × ℝ × ℝ) (distance : ℝ × ℝ × ℝ × ℝ) : ℝ :=
  let t := 0.5 - distance.1 * distance.1 - distance.2.1 * distance.2.1
    - distance.2.2.1 * distance.2.2.1 - distance.2.2.2 * distance.2.2.2
  if t < 0 then 0
  else
    let t2 := t * t
    t2 * t2 * dot4 g distance

noncomputable def skew_point (point : ℝ × ℝ × ℝ × ℝ) (factor : ℝ) : ℝ × ℝ × ℝ × ℝ :=
  add4 point
    ((point.1 + point.2.1 + point.2.2.1 + point.2.2.2) * factor,
      (point.1 + point.2.1 + point.2.2.1 + point.2.2.2) * factor,
      (point.1 + point.2.1 + point.2.2.1 + point.2.2.2) * factor,
      (point.1 + point.2.1 + point.2.2.1 + point.2.2.2) * factor)

noncomputable def unskew_point (sp : ℝ × ℝ × ℝ × ℝ) (factor : ℝ) : ℝ × ℝ × ℝ × ℝ :=
  sub4 sp
    ((sp.1 + sp.2.1 + sp.2.2.1 + sp.2.2.2) * factor,
      (sp.1 + sp.2.1 + sp.2.2.1 + sp.2.2.2) * factor,
      (sp.1 + sp.2.1 + sp.2.2.1 + sp.2.2.2) * factor,
      (sp.1 + sp.2.1 + sp.2.2.1 + sp.2.2.2) * factor)

noncomputable def skewed_input (point : ℝ × ℝ × ℝ × ℝ) : ℝ × ℝ × ℝ × ℝ :=
  skew_point point (skew_factor 4)

noncomputable def floored (point : ℝ × ℝ × ℝ × ℝ) : ℤ × ℤ × ℤ × ℤ :=
  to_isize4 (map4 (skewed_input point) floorR)

noncomputable def cell (point : ℝ × ℝ × ℝ × ℝ) : ℝ × ℝ × ℝ × ℝ :=
  unskew_point (to_f64_4 (floored point)) (unskew_factor 4)

noncomputable def distance (point : ℝ × ℝ × ℝ × ℝ) : ℝ × ℝ × ℝ × ℝ :=
  sub4 point (cell point)

/-- `rank_x`: the accumulated wins of component 0 in the six pairwise
comparisons. -/
noncomputable def rank_x (d : ℝ × ℝ × ℝ × ℝ) : ℕ :=
  (if d.1 > d.2.1 then 1 else 0) + (if d.1 > d.2.2.1 then 1 else 0)
    + (if d.1 > d.2.2.2 then 1 else 0)

noncomputable def rank_y (d : ℝ × ℝ × ℝ × ℝ) : ℕ :=
  (if d.1 > d.2.1 then 0 else 1) + (if d.2.1 > d.2.2.1 then 1 else 0)
    + (if d.2.1 > d.2.2.2 then 1 else 0)

noncomputable def rank_z (d : ℝ × ℝ × ℝ × ℝ) : ℕ :=
  (if d.1 > d.2.2.1 then 0 else 1) + (if d.2.1 > d.2.2.1 then 0 else 1)
    + (if d.2.2.1 > d.2.2.2 then 1 else 0)

noncomputable def rank_w (d : ℝ × ℝ × ℝ × ℝ) : ℕ :=
  (if d.1 > d.2.2.2 then 0 else 1) + (if d.2.1 > d.2.2.2 then 0 else 1)
    + (if d.2.2.1 > d.2.2.2 then 0 else 1)

/-- `offset1`, by thresholding rank ≥ 3 per axis. -/
noncomputable def offset1 (d : ℝ × ℝ × ℝ × ℝ) : ℤ × ℤ × ℤ × ℤ :=
  ((if rank_x d ≥ 3 then 1 else 0), (if rank_y d ≥ 3 then 1 else 0),
    (if rank_z d ≥ 3 then 1 else 0), (if rank_w d ≥ 3 then 1 else 0))

/-- `offset2`, by thresholding rank ≥ 2 per axis. -/
noncomputable def offset2 (d : ℝ × ℝ × ℝ × ℝ) : ℤ × ℤ × ℤ × ℤ :=
  ((if rank_x d ≥ 2 then 1 else 0), (if rank_y d ≥ 2 then 1 else 0),
    (if rank_z d ≥ 2 then 1 else 0), (if rank_w d ≥ 2 then 1 else 0))

/-- `offset3`, by thresholding rank ≥ 1 per axis. -/
noncomputable def offset3 (d : ℝ × ℝ × ℝ × ℝ) : ℤ × ℤ × ℤ × ℤ :=
  ((if rank_x d ≥ 1 then 1 else 0), (if rank_y d ≥ 1 then 1 else 0),
    (if rank_z d ≥ 1 then 1 else 0), (if rank_w d ≥ 1 then 1 else 0))

def offset4 : ℤ × ℤ × ℤ × ℤ := (1, 1, 1, 1)

noncomputable def corner2 (point : ℝ × ℝ × ℝ × ℝ) : ℝ × ℝ × ℝ × ℝ :=
  add4 (sub4 (distance point) (to_f64_4 (offset1 (distance point))))
    (unskew_factor 4, unskew_factor 4, unskew_factor 4, unskew_factor 4)

noncomputable def corner3 (point : ℝ × ℝ × ℝ × ℝ) : ℝ × ℝ × ℝ × ℝ :=
  add4 (sub4 (distance point) (to_f64_4 (offset2 (distance point))))
    (2 * unskew_factor 4, 2 * unskew_factor 4, 2 * unskew_factor 4,
      2 * unskew_factor 4)

noncomputable def corner4 (point : ℝ × ℝ × ℝ × ℝ) : ℝ × ℝ × ℝ × ℝ :=
  add4 (sub4 (distance point) (to_f64_4 (offset3 (distance point))))
    (3 * unskew_factor 4, 3 * unskew_factor 4, 3 * unskew_factor 4,
      3 * unskew_factor 4)

noncomputable def corner5 (point : ℝ × ℝ × ℝ × ℝ) : ℝ × ℝ × ℝ × ℝ :=
  add4 (sub4 (distance point) (1, 1, 1, 1))
    (4 * unskew_factor 4, 4 * unskew_factor 4, 4 * unskew_factor 4,
      4 * unskew_factor 4)

noncomputable def gi0 (e : Simplex) (point : ℝ × ℝ × ℝ × ℝ) : ℕ :=
  e.perm_table.get4 (floored point)

noncomputable def gi1 (e : Simplex) (point : ℝ × ℝ × ℝ × ℝ) : ℕ :=
  e.perm_table.get4 (iadd4 (floored point) (offset1 (distance point)))

noncomputable def gi2 (e : Simplex) (point : ℝ × ℝ × ℝ × ℝ) : ℕ :=
  e.perm_table.get4 (iadd4 (floored point) (offset2 (distance point)))

noncomputable def gi3 (e : Simplex) (point : ℝ × ℝ × ℝ × ℝ) : ℕ :=
  e.perm_table.get4 (iadd4 (floored point) (offset3 (distance point)))

noncomputable def gi4 (e : Simplex) (point : ℝ × ℝ × ℝ × ℝ) : ℕ :=
  e.perm_table.get4 (iadd4 (floored point) offset4)

/-- The 4D `NoiseFn::get`. -/
noncomputable def get (e : Simplex) (point : ℝ × ℝ × ℝ × ℝ) : ℝ :=
  27 * (surflet (gi0 e point) (distance point)
      + surflet (gi1 e point) (corner2 point)
      + surflet (gi2 e point) (corner3 point)
      + surflet (gi3 e point) (corner4 point)
      + surflet (gi4 e point) (corner5 point))

noncomputable def getChecked (e : Simplex) (point : ℝ × ℝ × ℝ × ℝ) : Option ℝ :=
  (gradient.get4? (gi0 e point)).bind fun g0 =>
    (gradient.get4? (gi1 e point)).bind fun g1 =>
      (gradient.get4? (gi2 e point)).bind fun g2 =>
        (gradient.get4? (gi3 e point)).bind fun g3 =>
          (gradient.get4? (gi4 e point)).map fun g4 =>
            27 * (surfletWith g0 (distance point)
                + surfletWith g1 (corner2 point)
                + surfletWith g2 (corner3 point)
                + surfletWith g3 (corner4 point)
                + surfletWith g4 (corner5 point))

end S4

/-! ### Spec-side formulas

These definitions transcribe the spec's own words (§4.4 steps 1–10) rather
than the source, so that the refinement theorems below can compare the two. -/

namespace Spec2

noncomputable def skewed (p : ℝ × ℝ) : ℝ × ℝ :=
  (p.1 + skew_factor 2 * (p.1 + p.2), p.2 + skew_factor 2 * (p.1 + p.2))

noncomputable def flooredSpec (p : ℝ × ℝ) : ℤ × ℤ :=
  (⌊(skewed p).1⌋, ⌊(skewed p).2⌋)

noncomputable def cellSpec (p : ℝ × ℝ) : ℝ × ℝ :=
  ((((flooredSpec p).1 : ℝ))
      - unskew_factor 2 * (((flooredSpec p).1 : ℝ) + ((flooredSpec p).2 : ℝ)),
    (((flooredSpec p).2 : ℝ))
      - unskew_factor 2 * (((flooredSpec p).1 : ℝ) + ((flooredSpec p).2 : ℝ)))

noncomputable def distanceSpec (p : ℝ × ℝ) : ℝ × ℝ :=
  (p.1 - (cellSpec p).1, p.2 - (cellSpec p).2)

/-- Spec step 7: `distance - corner_offset_k + k * unskew(n)`, elementwise. -/
noncomputable def localCoord (d : ℝ × ℝ) (off : ℤ × ℤ) (k : ℕ) : ℝ × ℝ :=
  (d.1 - (off.1 : ℝ) + (k : ℝ) * unskew_factor 2,
    d.2 - (off.2 : ℝ) + (k : ℝ) * unskew_factor 2)

/-- Spec step 9: `t = 0.5 - (sum of squared local-coordinate components)`;
`0` when `t < 0`, otherwise `(t*t)*(t*t)` times the gradient dot product. -/
noncomputable def contribution (g lc : ℝ × ℝ) : ℝ :=
  let t := 0.5 - (lc.1 * lc.1 + lc.2 * lc.2)
  if t < 0 then 0 else ((t * t) * (t * t)) * dot2 g lc

end Spec2

namespace Spec3

noncomputable def skewed (p : ℝ × ℝ × ℝ) : ℝ × ℝ × ℝ :=
  (p.1 + skew_factor 3 * (p.1 + p.2.1 + p.2.2),
    p.2.1 + skew_factor 3 * (p.1 + p.2.1 + p.2.2),
    p.2.2 + skew_factor 3 * (p.1 + p.2.1 + p.2.2))

noncomputable def flooredSpec (p : ℝ × ℝ × ℝ) : ℤ × ℤ × ℤ :=
  (⌊(skewed p).1⌋, ⌊(skewed p).2.1⌋, ⌊(skewed p).2.2⌋)

noncomputable def cellSpec (p : ℝ × ℝ × ℝ) : ℝ × ℝ × ℝ :=
  ((((flooredSpec p).1 : ℝ))
      - unskew_factor 3 * (((flooredSpec p).1 : ℝ) + ((flooredSpec p).2.1 : ℝ)
        + ((flooredSpec p).2.2 : ℝ)),
    (((flooredSpec p).2.1 : ℝ))
      - unskew_factor 3 * (((flooredSpec p).1 : ℝ) + ((flooredSpec p).2.1 : ℝ)
        + ((flooredSpec p).2.2 : ℝ)),
    (((flooredSpec p).2.2 : ℝ))
      - unskew_factor 3 * (((flooredSpec p).1 : ℝ) + ((flooredSpec p).2.1 : ℝ)
        + ((flooredSpec p).2.2 : ℝ)))

noncomputable def distanceSpec (p : ℝ × ℝ × ℝ) : ℝ × ℝ × ℝ :=
  (p.1 - (cellSpec p).1, p.2.1 - (cellSpec p).2.1, p.2.2 - (cellSpec p).2.2)

noncomputable def localCoord (d : ℝ × ℝ × ℝ) (off : ℤ × ℤ × ℤ) (k : ℕ) :
    ℝ × ℝ × ℝ :=
  (d.1 - (off.1 : ℝ) + (k : ℝ) * unskew_factor 3,
    d.2.1 - (off.2.1 : ℝ) + (k : ℝ) * unskew_factor 3,
    d.2.2 - (off.2.2 : ℝ) + (k : ℝ) * unskew_factor 3)

noncomputable def contribution (g lc : ℝ × ℝ × ℝ) : ℝ :=
  let t := 0.5 - (lc.1 * lc.1 + lc.2.1 * lc.2.1 + lc.2.2 * lc.2.2)
  if t < 0 then 0 else ((t * t) * (t * t)) * dot3 g lc

end Spec3

namespace Spec4

noncomputable def skewed (p : ℝ × ℝ × ℝ × ℝ) : ℝ × ℝ × ℝ × ℝ :=
  (p.1 + skew_factor 4 * (p.1 + p.2.1 + p.2.2.1 + p.2.2.2),
    p.2.1 + skew_factor 4 * (p.1 + p.2.1 + p.2.2.1 + p.2.2.2),
    p.2.2.1 + skew_factor 4 * (p.1 + p.2.1 + p.2.2.1 + p.2.2.2),
    p.2.2.2 + skew_factor 4 * (p.1 + p.2.1 + p.2.2.1 + p.2.2.2))

noncomputable def flooredSpec (p : ℝ × ℝ × ℝ × ℝ) : ℤ × ℤ × ℤ × ℤ :=
  (⌊(skewed p).1⌋, ⌊(skewed p).2.1⌋, ⌊(skewed p).2.2.1⌋, ⌊(skewed p).2.2.2⌋)

noncomputable def cellSpec (p : ℝ × ℝ × ℝ × ℝ) : ℝ × ℝ × ℝ × ℝ :=
  ((((flooredSpec p).1 : ℝ))
      - unskew_factor 4 * (((flooredSpec p).1 : ℝ) + ((flooredSpec p).2.1 : ℝ)
        + ((flooredSpec p).2.2.1 : ℝ) + ((flooredSpec p).2.2.2 : ℝ)),
    (((flooredSpec p).2.1 : ℝ))
      - unskew_factor 4 * (((flooredSpec p).1 : ℝ) + ((flooredSpec p).2.1 : ℝ)
        + ((flooredSpec p).2.2.1 : ℝ) + ((flooredSpec p).2.2.2 : ℝ)),
    (((flooredSpec p).2.2.1 : ℝ))
      - unskew_factor 4 * (((flooredSpec p).1 : ℝ) + ((flooredSpec p).2.1 : ℝ)
        + ((flooredSpec p).2.2.1 : ℝ) + ((flooredSpec p).2.2.2 : ℝ)),
    (((flooredSpec p).2.2.2 : ℝ))
      - unskew_factor 4 * (((flooredSpec p).1 : ℝ) + ((flooredSpec p).2.1 : ℝ)
        + ((flooredSpec p).2.2.1 : ℝ) + ((flooredSpec p).2.2.2 : ℝ)))

noncomputable def distanceSpec (p : ℝ × ℝ × ℝ × ℝ) : ℝ × ℝ × ℝ × ℝ :=
  (p.1 - (cellSpec p).1, p.2.1 - (cellSpec p).2.1,
    p.2.2.1 - (cellSpec p).2.2.1, p.2.2.2 - (cellSpec p).2.2.2)

noncomputable def localCoord (d : ℝ × ℝ × ℝ × ℝ) (off : ℤ × ℤ × ℤ × ℤ)
    (k : ℕ) : ℝ × ℝ × ℝ × ℝ :=
  (d.1 - (off.1 : ℝ) + (k : ℝ) * unskew_factor 4,
    d.2.1 - (off.2.1 : ℝ) + (k : ℝ) * unskew_factor 4,
    d.2.2.1 - (off.2.2.1 : ℝ) + (k : ℝ) * unskew_factor 4,
    d.2.2.2 - (off.2.2.2 : ℝ) + (k : ℝ) * unskew_factor 4)

noncomputable def contribution (g lc : ℝ × ℝ × ℝ × ℝ) : ℝ :=
  let t := 0.5 - (lc.1 * lc.1 + lc.2.1 * lc.2.1 + lc.2.2.1 * lc.2.2.1
    + lc.2.2.2 * lc.2.2.2)
  if t < 0 then 0 else ((t * t) * (t * t)) * dot4 g lc

end Spec4

/-! ### Simplex-edge path predicates (for the corner-ordering invariant) -/

/-- All three components are 0 or 1. -/
def zeroOne3 (a : ℤ × ℤ × ℤ) : Prop :=
  (a.1 = 0 ∨ a.1 = 1) ∧ (a.2.1 = 0 ∨ a.2.1 = 1) ∧ (a.2.2 = 0 ∨ a.2.2 = 1)

/-- `b` is obtained from the 0/1 vector `a` by setting exactly one more
coordinate to 1: both are 0/1 vectors, `a ≤ b` componentwise, and the number
of ones grows by exactly one. -/
def oneMore3 (a b : ℤ × ℤ × ℤ) : Prop :=
  zeroOne3 a ∧ zeroOne3 b ∧ a.1 ≤ b.1 ∧ a.2.1 ≤ b.2.1 ∧ a.2.2 ≤ b.2.2 ∧
    b.1 + b.2.1 + b.2.2 = a.1 + a.2.1 + a.2.2 + 1

def zeroOne4 (a : ℤ × ℤ × ℤ × ℤ) : Prop :=
  (a.1 = 0 ∨ a.1 = 1) ∧ (a.2.1 = 0 ∨ a.2.1 = 1) ∧
    (a.2.2.1 = 0 ∨ a.2.2.1 = 1) ∧ (a.2.2.2 = 0 ∨ a.2.2.2 = 1)

/-- Number of ones (component sum) of a 0/1 vector in 4D. -/
def ones4 (a : ℤ × ℤ × ℤ × ℤ) : ℤ := a.1 + a.2.1 + a.2.2.1 + a.2.2.2

/-- Componentwise order on 4D integer offsets. -/
def le4 (a b : ℤ × ℤ × ℤ × ℤ) : Prop :=
  a.1 ≤ b.1 ∧ a.2.1 ≤ b.2.1 ∧ a.2.2.1 ≤ b.2.2.1 ∧ a.2.2.2 ≤ b.2.2.2

def oneMore4 (a b : ℤ × ℤ × ℤ × ℤ) : Prop :=
  zeroOne4 a ∧ zeroOne4 b ∧ le4 a b ∧ ones4 b = ones4 a + 1

instance (a : ℤ × ℤ × ℤ) : Decidable (zeroOne3 a) :=
  inferInstanceAs (Decidable ((a.1 = 0 ∨ a.1 = 1) ∧ (a.2.1 = 0 ∨ a.2.1 = 1)
    ∧ (a.2.2 = 0 ∨ a.2.2 = 1)))

instance (a b : ℤ × ℤ × ℤ) : Decidable (oneMore3 a b) :=
  inferInstanceAs (Decidable (zeroOne3 a ∧ zeroOne3 b ∧ a.1 ≤ b.1
    ∧ a.2.1 ≤ b.2.1 ∧ a.2.2 ≤ b.2.2
    ∧ b.1 + b.2.1 + b.2.2 = a.1 + a.2.1 + a.2.2 + 1))

instance (a : ℤ × ℤ × ℤ × ℤ) : Decidable (zeroOne4 a) :=
  inferInstanceAs (Decidable ((a.1 = 0 ∨ a.1 = 1) ∧ (a.2.1 = 0 ∨ a.2.1 = 1)
    ∧ (a.2.2.1 = 0 ∨ a.2.2.1 = 1) ∧ (a.2.2.2 = 0 ∨ a.2.2.2 = 1)))

instance (a b : ℤ × ℤ × ℤ × ℤ) : Decidable (le4 a b) :=
  inferInstanceAs (Decidable (a.1 ≤ b.1 ∧ a.2.1 ≤ b.2.1 ∧ a.2.2.1 ≤ b.2.2.1
    ∧ a.2.2.2 ≤ b.2.2.2))

instance (a b : ℤ × ℤ × ℤ × ℤ) : Decidable (oneMore4 a b) :=
  inferInstanceAs (Decidable (zeroOne4 a ∧ zeroOne4 b ∧ le4 a b
    ∧ ones4 b = ones4 a + 1))

/-! ### Theorems -/

/-- Every coherent evaluator's `set_seed` produces exactly the fresh value
`{ seed, perm_table := PermutationTable.new seed }`, fast path included. -/
theorem set_seed_eq_fresh (e : Simplex) (s : ℕ) (h : e.Coherent) :
    e.set_seed s = { seed := s, perm_table := PermutationTable.new s } := by
  unfold Simplex.set_seed
  by_cases hs : e.seed = s
  · rw [if_pos hs]
    cases e with
    | mk sd pt =>
      simp only [Simplex.Coherent] at h
      dsimp only at hs h
      subst hs
      rw [h]
  · rw [if_neg hs]

/-- C9: `Simplex::new()` constructs an evaluator with the fixed default seed
0, `Default::default()` returns the same evaluator as `new()`, and the seed
accessor on a newly constructed evaluator returns 0. -/
theorem c9_new_default_seed_zero :
    Simplex.new.seed = 0 ∧ Simplex.DEFAULT_SEED = 0 ∧
      Simplex.defaultSimplex = Simplex.new ∧ Simplex.new.seedAccessor = 0 :=
  ⟨rfl, rfl, rfl, rfl⟩

/-- C10: every evaluator reachable through the public constructors satisfies
`perm_table = PermutationTable.new seed`: the invariant holds for `new` (and
hence `default`), is preserved by `set_seed`, `set_seed` is idempotent, and
`set_seed` with the current seed returns the evaluator itself unchanged. -/
theorem c10_coherence_invariant (e : Simplex) (s : ℕ) (h : e.Coherent) :
    Simplex.new.Coherent ∧ (e.set_seed s).Coherent ∧
      (e.set_seed s).set_seed s = e.set_seed s ∧ e.set_seed e.seed = e := by
  have hf := set_seed_eq_fresh e s h
  refine ⟨rfl, ?_, ?_, ?_⟩
  · rw [hf]; rfl
  · rw [hf]
    unfold Simplex.set_seed
    rw [if_pos rfl]
  · unfold Simplex.set_seed
    rw [if_pos rfl]

theorem c10_coherence_invariant_witness :
    Simplex.new.Coherent ∧ (Simplex.new.set_seed 5).Coherent ∧
      (Simplex.new.set_seed 5).set_seed 5 = Simplex.new.set_seed 5 ∧
      Simplex.new.set_seed Simplex.new.seed = Simplex.new :=
  c10_coherence_invariant Simplex.new 5 rfl

/-- C7: for a (reachable, hence coherent) evaluator, `set_seed` returns an
evaluator whose seed accessor yields `s` and whose permutation table is
derived from `s`; the result coincides with a freshly constructed evaluator
with seed `s` (hence evaluates identically to it at every point — the Lean
model is purely functional, so the original `e` is never mutated), and
`set_seed` with the current seed returns an evaluator behaving identically
to `e` (it is `e` itself). -/
theorem c7_set_seed_fresh (e : Simplex) (s : ℕ) (h : e.Coherent)
    (p2 : ℝ × ℝ) (p3 : ℝ × ℝ × ℝ) (p4 : ℝ × ℝ × ℝ × ℝ) :
    (e.set_seed s).seedAccessor = s ∧
      (e.set_seed s).perm_table = PermutationTable.new s ∧
      e.set_seed s = Simplex.new.set_seed s ∧
      S2.get (e.set_seed s) p2 = S2.get (Simplex.new.set_seed s) p2 ∧
      S3.get (e.set_seed s) p3 = S3.get (Simplex.new.set_seed s) p3 ∧
      S4.get (e.set_seed s) p4 = S4.get (Simplex.new.set_seed s) p4 ∧
      e.set_seed e.seed = e := by
  have hf := set_seed_eq_fresh e s h
  have hn := set_seed_eq_fresh Simplex.new s rfl
  have he : e.set_seed s = Simplex.new.set_seed s := by rw [hf, hn]
  refine ⟨by rw [hf]; rfl, by rw [hf], he, by rw [he], by rw [he],
    by rw [he], ?_⟩
  unfold Simplex.set_seed
  rw [if_pos rfl]

theorem c7_set_seed_fresh_witness :
    (Simplex.new.set_seed 3).seedAccessor = 3 ∧
      (Simplex.new.set_seed 3).perm_table = PermutationTable.new 3 ∧
      Simplex.new.set_seed 3 = Simplex.new.set_seed 3 ∧
      S2.get (Simplex.new.set_seed 3) (0, 0)
        = S2.get (Simplex.new.set_seed 3) (0, 0) ∧
      S3.get (Simplex.new.set_seed 3) (0, 0, 0)
        = S3.get (Simplex.new.set_seed 3) (0, 0, 0) ∧
      S4.get (Simplex.new.set_seed 3) (0, 0, 0, 0)
        = S4.get (Simplex.new.set_seed 3) (0, 0, 0, 0) ∧
      Simplex.new.set_seed Simplex.new.seed = Simplex.new :=
  c7_set_seed_fresh Simplex.new 3 rfl (0, 0) (0, 0, 0) (0, 0, 0, 0)

/-- C6: evaluation is a pure function of seed and point.  In this functional
model repeated calls are literally the same value; substantively, any two
coherent evaluators holding the same seed are equal as values and therefore
return identical results at every point, in every arity. -/
theorem c6_same_seed_same_results (e₁ e₂ : Simplex)
    (h₁ : e₁.Coherent) (h₂ : e₂.Coherent) (hs : e₁.seed = e₂.seed)
    (p2 : ℝ × ℝ) (p3 : ℝ × ℝ × ℝ) (p4 : ℝ × ℝ × ℝ × ℝ) :
    e₁ = e₂ ∧ S2.get e₁ p2 = S2.get e₂ p2 ∧ S3.get e₁ p3 = S3.get e₂ p3 ∧
      S4.get e₁ p4 = S4.get e₂ p4 := by
  have he : e₁ = e₂ := by
    cases e₁ with
    | mk s₁ t₁ =>
      cases e₂ with
      | mk s₂ t₂ =>
        simp only [Simplex.Coherent] at h₁ h₂
        dsimp only at h₁ h₂ hs
        subst hs
        rw [h₁, h₂]
  subst he
  exact ⟨rfl, rfl, rfl, rfl⟩

theorem c6_same_seed_same_results_witness :
    Simplex.defaultSimplex = Simplex.new ∧
      S2.get Simplex.defaultSimplex (0, 0) = S2.get Simplex.new (0, 0) ∧
      S3.get Simplex.defaultSimplex (0, 0, 0)
        = S3.get Simplex.new (0, 0, 0) ∧
      S4.get Simplex.defaultSimplex (1, 1, 1, 1)
        = S4.get Simplex.new (1, 1, 1, 1) :=
  c6_same_seed_same_results Simplex.defaultSimplex Simplex.new rfl rfl rfl
    (0, 0) (0, 0, 0) (1, 1, 1, 1)

/-- C4: in the 2D evaluator the corner traversal order is `[1, 0]` exactly
when `distance[0] > distance[1]` and `[0, 1]` otherwise; in particular a tie
between the two components selects `[0, 1]`. -/
theorem c4_corner_order_2d :
    (∀ p : ℝ × ℝ, S2.offsets (S2.distance p)
        = if (S2.distance p).1 > (S2.distance p).2 then (1, 0) else (0, 1)) ∧
      (∀ x : ℝ, S2.offsets (x, x) = (0, 1)) := by
  constructor
  · intro p; rfl
  · intro x
    unfold S2.offsets
    rw [if_neg (lt_irrefl x)]

/-- C3: for every input, the ordered corner-offset sequence produced by the
3D decision tree and by the 4D rank-counter thresholding starts at the zero
vector, ends at the all-ones vector, and each successive offset sets exactly
one more coordinate to 1; in 4D the intermediate offsets have exactly one,
two and three unit components and are componentwise increasing.  (The real
model has no NaN, so the no-NaN proviso of the claim is vacuous here.) -/
theorem c3_corner_path_invariant :
    (∀ d : ℝ × ℝ × ℝ,
        oneMore3 (0, 0, 0) (S3.offset1 d) ∧
        oneMore3 (S3.offset1 d) (S3.offset2 d) ∧
        oneMore3 (S3.offset2 d) S3.offset3) ∧
    (∀ d : ℝ × ℝ × ℝ × ℝ,
        oneMore4 (0, 0, 0, 0) (S4.offset1 d) ∧
        oneMore4 (S4.offset1 d) (S4.offset2 d) ∧
        oneMore4 (S4.offset2 d) (S4.offset3 d) ∧
        oneMore4 (S4.offset3 d) S4.offset4 ∧
        ones4 (S4.offset1 d) = 1 ∧ ones4 (S4.offset2 d) = 2 ∧
        ones4 (S4.offset3 d) = 3 ∧
        le4 (S4.offset1 d) (S4.offset2 d) ∧
        le4 (S4.offset2 d) (S4.offset3 d)) := by
  constructor
  · intro d
    unfold S3.offset1 S3.offset2 S3.offset3 S3.offsetPair
    split_ifs <;> exact by decide
  · intro d
    unfold S4.offset1 S4.offset2 S4.offset3 S4.offset4
    unfold S4.rank_x S4.rank_y S4.rank_z S4.rank_w
    by_cases h1 : d.1 > d.2.1 <;> by_cases h2 : d.1 > d.2.2.1 <;>
      by_cases h3 : d.1 > d.2.2.2 <;> by_cases h4 : d.2.1 > d.2.2.1 <;>
      by_cases h5 : d.2.1 > d.2.2.2 <;> by_cases h6 : d.2.2.1 > d.2.2.2 <;>
      simp only [h1, h2, h3, h4, h5, h6, if_true, if_false] <;>
      first
        | decide
        | (exfalso; linarith)

/-- The 2D lattice-cell origin matches the spec's skew-floor formula. -/
theorem floored2_eq (p : ℝ × ℝ) : S2.floored p = Spec2.flooredSpec p := by
  simp only [S2.floored, S2.skewed_input, S2.skew_point, Spec2.flooredSpec,
    Spec2.skewed, to_isize2, map2, add2, floorR, Int.floor_intCast]
  rw [show p.1 + (p.1 + p.2) * skew_factor 2
        = p.1 + skew_factor 2 * (p.1 + p.2) from by ring,
    show p.2 + (p.1 + p.2) * skew_factor 2
        = p.2 + skew_factor 2 * (p.1 + p.2) from by ring]

theorem cell2_eq (p : ℝ × ℝ) : S2.cell p = Spec2.cellSpec p := by
  simp only [S2.cell, S2.unskew_point, to_f64_2, sub2, Spec2.cellSpec,
    ← floored2_eq]
  exact Prod.ext_iff.mpr ⟨by ring, by ring⟩

theorem distance2_eq (p : ℝ × ℝ) : S2.distance p = Spec2.distanceSpec p := by
  simp only [S2.distance, sub2, Spec2.distanceSpec, ← cell2_eq]

theorem floored3_eq (p : ℝ × ℝ × ℝ) : S3.floored p = Spec3.flooredSpec p := by
  simp only [S3.floored, S3.skewed_input, S3.skew_point, Spec3.flooredSpec,
    Spec3.skewed, to_isize3, map3, add3, floorR, Int.floor_intCast]
  rw [show p.1 + (p.1 + p.2.1 + p.2.2) * skew_factor 3
        = p.1 + skew_factor 3 * (p.1 + p.2.1 + p.2.2) from by ring,
    show p.2.1 + (p.1 + p.2.1 + p.2.2) * skew_factor 3
        = p.2.1 + skew_factor 3 * (p.1 + p.2.1 + p.2.2) from by ring,
    show p.2.2 + (p.1 + p.2.1 + p.2.2) * skew_factor 3
        = p.2.2 + skew_factor 3 * (p.1 + p.2.1 + p.2.2) from by ring]

theorem cell3_eq (p : ℝ × ℝ × ℝ) : S3.cell p = Spec3.cellSpec p := by
  simp only [S3.cell, S3.unskew_point, to_f64_3, sub3, Spec3.cellSpec,
    ← floored3_eq]
  exact Prod.ext_iff.mpr ⟨by ring, Prod.ext_iff.mpr ⟨by ring, by ring⟩⟩

theorem distance3_eq (p : ℝ × ℝ × ℝ) : S3.distance p = Spec3.distanceSpec p := by
  simp only [S3.distance, sub3, Spec3.distanceSpec, ← cell3_eq]

theorem floored4_eq (p : ℝ × ℝ × ℝ × ℝ) :
    S4.floored p = Spec4.flooredSpec p := by
  simp only [S4.floored, S4.skewed_input, S4.skew_point, Spec4.flooredSpec,
    Spec4.skewed, to_isize4, map4, add4, floorR, Int.floor_intCast]
  rw [show p.1 + (p.1 + p.2.1 + p.2.2.1 + p.2.2.2) * skew_factor 4
        = p.1 + skew_factor 4 * (p.1 + p.2.1 + p.2.2.1 + p.2.2.2) from by ring,
    show p.2.1 + (p.1 + p.2.1 + p.2.2.1 + p.2.2.2) * skew_factor 4
        = p.2.1 + skew_factor 4 * (p.1 + p.2.1 + p.2.2.1 + p.2.2.2) from by
          ring,
    show p.2.2.1 + (p.1 + p.2.1 + p.2.2.1 + p.2.2.2) * skew_factor 4
        = p.2.2.1 + skew_factor 4 * (p.1 + p.2.1 + p.2.2.1 + p.2.2.2) from by
          ring,
    show p.2.2.2 + (p.1 + p.2.1 + p.2.2.1 + p.2.2.2) * skew_factor 4
        = p.2.2.2 + skew_factor 4 * (p.1 + p.2.1 + p.2.2.1 + p.2.2.2) from by
          ring]

theorem cell4_eq (p : ℝ × ℝ × ℝ × ℝ) : S4.cell p = Spec4.cellSpec p := by
  simp only [S4.cell, S4.unskew_point, to_f64_4, sub4, Spec4.cellSpec,
    ← floored4_eq]
  exact Prod.ext_iff.mpr ⟨by ring, Prod.ext_iff.mpr ⟨by ring,
    Prod.ext_iff.mpr ⟨by ring, by ring⟩⟩⟩

theorem distance4_eq (p : ℝ × ℝ × ℝ × ℝ) :
    S4.distance p = Spec4.distanceSpec p := by
  simp only [S4.distance, sub4, Spec4.distanceSpec, ← cell4_eq]

/-- C5: for every arity the evaluator's lattice cell and local displacement
follow the spec's formulas — `skewed = point + skew(n) * Σ point`, `floored`
its componentwise floor as integers, `cell = floored - unskew(n) * Σ floored`
and `distance = point - cell`, with `skew(n) = (sqrt(n+1) - 1)/n` and
`unskew(n) = (1 - 1/sqrt(n+1))/n` exactly as computed by `skew_factor` and
`unskew_factor`. -/
theorem c5_skew_floor_cell_distance :
    (∀ n : ℕ, skew_factor n = (Real.sqrt ((n : ℝ) + 1) - 1) / (n : ℝ) ∧
        unskew_factor n = (1 - 1 / Real.sqrt ((n : ℝ) + 1)) / (n : ℝ)) ∧
    (∀ p : ℝ × ℝ, S2.floored p = Spec2.flooredSpec p ∧
        S2.cell p = Spec2.cellSpec p ∧ S2.distance p = Spec2.distanceSpec p) ∧
    (∀ p : ℝ × ℝ × ℝ, S3.floored p = Spec3.flooredSpec p ∧
        S3.cell p = Spec3.cellSpec p ∧ S3.distance p = Spec3.distanceSpec p) ∧
    (∀ p : ℝ × ℝ × ℝ × ℝ, S4.floored p = Spec4.flooredSpec p ∧
        S4.cell p = Spec4.cellSpec p ∧ S4.distance p = Spec4.distanceSpec p) :=
  ⟨fun _ => ⟨rfl, rfl⟩,
    fun p => ⟨floored2_eq p, cell2_eq p, distance2_eq p⟩,
    fun p => ⟨floored3_eq p, cell3_eq p, distance3_eq p⟩,
    fun p => ⟨floored4_eq p, cell4_eq p, distance4_eq p⟩⟩

theorem surflet2_spec (gi : ℕ) (d : ℝ × ℝ) :
    S2.surflet gi d = Spec2.contribution (gradient.get2 gi) d := by
  simp only [S2.surflet, Spec2.contribution]
  rw [show 0.5 - (d.1 * d.1 + d.2 * d.2)
      = 0.5 - d.1 * d.1 - d.2 * d.2 from by ring]

theorem corner0_2_eq (p : ℝ × ℝ) :
    S2.distance p = Spec2.localCoord (S2.distance p) (0, 0) 0 := by
  simp only [Spec2.localCoord]
  exact Prod.ext_iff.mpr ⟨by push_cast; ring, by push_cast; ring⟩

theorem corner2_2_eq (p : ℝ × ℝ) :
    S2.corner2 p
      = Spec2.localCoord (S2.distance p) (S2.offsets (S2.distance p)) 1 := by
  simp only [S2.corner2, add2, sub2, to_f64_2, Spec2.localCoord]
  exact Prod.ext_iff.mpr ⟨by push_cast; ring, by push_cast; ring⟩

theorem corner3_2_eq (p : ℝ × ℝ) :
    S2.corner3 p = Spec2.localCoord (S2.distance p) (1, 1) 2 := by
  simp only [S2.corner3, add2, sub2, Spec2.localCoord]
  exact Prod.ext_iff.mpr ⟨by push_cast; ring, by push_cast; ring⟩

theorem gi0_2_eq (e : Simplex) (p : ℝ × ℝ) :
    S2.gi0 e p = e.perm_table.get2 (iadd2 (S2.floored p) (0, 0)) := by
  simp [S2.gi0, iadd2]

theorem term0_2 (e : Simplex) (p : ℝ × ℝ) :
    S2.surflet (S2.gi0 e p) (S2.distance p)
      = Spec2.contribution
          (gradient.get2 (e.perm_table.get2 (iadd2 (S2.floored p) (0, 0))))
          (Spec2.localCoord (S2.distance p) (0, 0) 0) := by
  rw [← gi0_2_eq, ← corner0_2_eq]
  exact surflet2_spec _ _

theorem term1_2 (e : Simplex) (p : ℝ × ℝ) :
    S2.surflet (S2.gi1 e p) (S2.corner2 p)
      = Spec2.contribution
          (gradient.get2 (e.perm_table.get2
            (iadd2 (S2.floored p) (S2.offsets (S2.distance p)))))
          (Spec2.localCoord (S2.distance p) (S2.offsets (S2.distance p)) 1) := by
  rw [← corner2_2_eq]
  exact surflet2_spec _ _

theorem term2_2 (e : Simplex) (p : ℝ × ℝ) :
    S2.surflet (S2.gi2 e p) (S2.corner3 p)
      = Spec2.contribution
          (gradient.get2 (e.perm_table.get2 (iadd2 (S2.floored p) (1, 1))))
          (Spec2.localCoord (S2.distance p) (1, 1) 2) := by
  rw [← corner3_2_eq]
  exact surflet2_spec _ _

theorem surflet3_spec (gi : ℕ) (d : ℝ × ℝ × ℝ) :
    S3.surflet gi d = Spec3.contribution (gradient.get3 gi) d := by
  simp only [S3.surflet, Spec3.contribution]
  rw [show 0.5 - (d.1 * d.1 + d.2.1 * d.2.1 + d.2.2 * d.2.2)
      = 0.5 - d.1 * d.1 - d.2.1 * d.2.1 - d.2.2 * d.2.2 from by ring]

theorem surflet4_spec (gi : ℕ) (d : ℝ × ℝ × ℝ × ℝ) :
    S4.surflet gi d = Spec4.contribution (gradient.get4 gi) d := by
  simp only [S4.surflet, Spec4.contribution]
  rw [show 0.5 - (d.1 * d.1 + d.2.1 * d.2.1 + d.2.2.1 * d.2.2.1
        + d.2.2.2 * d.2.2.2)
      = 0.5 - d.1 * d.1 - d.2.1 * d.2.1 - d.2.2.1 * d.2.2.1
        - d.2.2.2 * d.2.2.2 from by ring]

theorem corner0_3_eq (p : ℝ × ℝ × ℝ) :
    S3.distance p = Spec3.localCoord (S3.distance p) (0, 0, 0) 0 := by
  simp only [Spec3.localCoord]
  exact Prod.ext_iff.mpr ⟨by push_cast; ring,
    Prod.ext_iff.mpr ⟨by push_cast; ring, by push_cast; ring⟩⟩

theorem corner2_3_eq (p : ℝ × ℝ × ℝ) :
    S3.corner2 p
      = Spec3.localCoord (S3.distance p) (S3.offset1 (S3.distance p)) 1 := by
  simp only [S3.corner2, add3, sub3, to_f64_3, Spec3.localCoord]
  exact Prod.ext_iff.mpr ⟨by push_cast; ring,
    Prod.ext_iff.mpr ⟨by push_cast; ring, by push_cast; ring⟩⟩

theorem corner3_3_eq (p : ℝ × ℝ × ℝ) :
    S3.corner3 p
      = Spec3.localCoord (S3.distance p) (S3.offset2 (S3.distance p)) 2 := by
  simp only [S3.corner3, add3, sub3, to_f64_3, Spec3.localCoord]
  exact Prod.ext_iff.mpr ⟨by push_cast; ring,
    Prod.ext_iff.mpr ⟨by push_cast; ring, by push_cast; ring⟩⟩

theorem corner4_3_eq (p : ℝ × ℝ × ℝ) :
    S3.corner4 p = Spec3.localCoord (S3.distance p) (1, 1, 1) 3 := by
  simp only [S3.corner4, add3, sub3, Spec3.localCoord]
  exact Prod.ext_iff.mpr ⟨by push_cast; ring,
    Prod.ext_iff.mpr ⟨by push_cast; ring, by push_cast; ring⟩⟩

theorem corner0_4_eq (p : ℝ × ℝ × ℝ × ℝ) :
    S4.distance p = Spec4.localCoord (S4.distance p) (0, 0, 0, 0) 0 := by
  simp only [Spec4.localCoord]
  exact Prod.ext_iff.mpr ⟨by push_cast; ring, Prod.ext_iff.mpr
    ⟨by push_cast; ring,
      Prod.ext_iff.mpr ⟨by push_cast; ring, by push_cast; ring⟩⟩⟩

theorem corner2_4_eq (p : ℝ × ℝ × ℝ × ℝ) :
    S4.corner2 p
      = Spec4.localCoord (S4.distance p) (S4.offset1 (S4.distance p)) 1 := by
  simp only [S4.corner2, add4, sub4, to_f64_4, Spec4.localCoord]
  exact Prod.ext_iff.mpr ⟨by push_cast; ring, Prod.ext_iff.mpr
    ⟨by push_cast; ring,
      Prod.ext_iff.mpr ⟨by push_cast; ring, by push_cast; ring⟩⟩⟩

theorem corner3_4_eq (p : ℝ × ℝ × ℝ × ℝ) :
    S4.corner3 p
      = Spec4.localCoord (S4.distance p) (S4.offset2 (S4.distance p)) 2 := by
  simp only [S4.corner3, add4, sub4, to_f64_4, Spec4.localCoord]
  exact Prod.ext_iff.mpr ⟨by push_cast; ring, Prod.ext_iff.mpr
    ⟨by push_cast; ring,
      Prod.ext_iff.mpr ⟨by push_cast; ring, by push_cast; ring⟩⟩⟩

theorem corner4_4_eq (p : ℝ × ℝ × ℝ × ℝ) :
    S4.corner4 p
      = Spec4.localCoord (S4.distance p) (S4.offset3 (S4.distance p)) 3 := by
  simp only [S4.corner4, add4, sub4, to_f64_4, Spec4.localCoord]
  exact Prod.ext_iff.mpr ⟨by push_cast; ring, Prod.ext_iff.mpr
    ⟨by push_cast; ring,
      Prod.ext_iff.mpr ⟨by push_cast; ring, by push_cast; ring⟩⟩⟩

theorem corner5_4_eq (p : ℝ × ℝ × ℝ × ℝ) :
    S4.corner5 p = Spec4.localCoord (S4.distance p) (1, 1, 1, 1) 4 := by
  simp only [S4.corner5, add4, sub4, Spec4.localCoord]
  exact Prod.ext_iff.mpr ⟨by push_cast; ring, Prod.ext_iff.mpr
    ⟨by push_cast; ring,
      Prod.ext_iff.mpr ⟨by push_cast; ring, by push_cast; ring⟩⟩⟩

theorem gi0_3_eq (e : Simplex) (p : ℝ × ℝ × ℝ) :
    S3.gi0 e p = e.perm_table.get3 (iadd3 (S3.floored p) (0, 0, 0)) := by
  simp [S3.gi0, iadd3]

theorem gi0_4_eq (e : Simplex) (p : ℝ × ℝ × ℝ × ℝ) :
    S4.gi0 e p = e.perm_table.get4 (iadd4 (S4.floored p) (0, 0, 0, 0)) := by
  simp [S4.gi0, iadd4]

theorem term0_3 (e : Simplex) (p : ℝ × ℝ × ℝ) :
    S3.surflet (S3.gi0 e p) (S3.distance p)
      = Spec3.contribution
          (gradient.get3 (e.perm_table.get3 (iadd3 (S3.floored p) (0, 0, 0))))
          (Spec3.localCoord (S3.distance p) (0, 0, 0) 0) := by
  rw [← gi0_3_eq, ← corner0_3_eq]
  exact surflet3_spec _ _

theorem term1_3 (e : Simplex) (p : ℝ × ℝ × ℝ) :
    S3.surflet (S3.gi1 e p) (S3.corner2 p)
      = Spec3.contribution
          (gradient.get3 (e.perm_table.get3
            (iadd3 (S3.floored p) (S3.offset1 (S3.distance p)))))
          (Spec3.localCoord (S3.distance p) (S3.offset1 (S3.distance p)) 1) := by
  rw [← corner2_3_eq]
  exact surflet3_spec _ _

theorem term2_3 (e : Simplex) (p : ℝ × ℝ × ℝ) :
    S3.surflet (S3.gi2 e p) (S3.corner3 p)
      = Spec3.contribution
          (gradient.get3 (e.perm_table.get3
            (iadd3 (S3.floored p) (S3.offset2 (S3.distance p)))))
          (Spec3.localCoord (S3.distance p) (S3.offset2 (S3.distance p)) 2) := by
  rw [← corner3_3_eq]
  exact surflet3_spec _ _

theorem term3_3 (e : Simplex) (p : ℝ × ℝ × ℝ) :
    S3.surflet (S3.gi3 e p) (S3.corner4 p)
      = Spec3.contribution
          (gradient.get3 (e.perm_table.get3 (iadd3 (S3.floored p) (1, 1, 1))))
          (Spec3.localCoord (S3.distance p) (1, 1, 1) 3) := by
  rw [← corner4_3_eq]
  exact surflet3_spec _ _

theorem term0_4 (e : Simplex) (p : ℝ × ℝ × ℝ × ℝ) :
    S4.surflet (S4.gi0 e p) (S4.distance p)
      = Spec4.contribution
          (gradient.get4 (e.perm_table.get4
            (iadd4 (S4.floored p) (0, 0, 0, 0))))
          (Spec4.localCoord (S4.distance p) (0, 0, 0, 0) 0) := by
  rw [← gi0_4_eq, ← corner0_4_eq]
  exact surflet4_spec _ _

theorem term1_4 (e : Simplex) (p : ℝ × ℝ × ℝ × ℝ) :
    S4.surflet (S4.gi1 e p) (S4.corner2 p)
      = Spec4.contribution
          (gradient.get4 (e.perm_table.get4
            (iadd4 (S4.floored p) (S4.offset1 (S4.distance p)))))
          (Spec4.localCoord (S4.distance p) (S4.offset1 (S4.distance p)) 1) := by
  rw [← corner2_4_eq]
  exact surflet4_spec _ _

theorem term2_4 (e : Simplex) (p : ℝ × ℝ × ℝ × ℝ) :
    S4.surflet (S4.gi2 e p) (S4.corner3 p)
      = Spec4.contribution
          (gradient.get4 (e.perm_table.get4
            (iadd4 (S4.floored p) (S4.offset2 (S4.distance p)))))
          (Spec4.localCoord (S4.distance p) (S4.offset2 (S4.distance p)) 2) := by
  rw [← corner3_4_eq]
  exact surflet4_spec _ _

theorem term3_4 (e : Simplex) (p : ℝ × ℝ × ℝ × ℝ) :
    S4.surflet (S4.gi3 e p) (S4.corner4 p)
      = Spec4.contribution
          (gradient.get4 (e.perm_table.get4
            (iadd4 (S4.floored p) (S4.offset3 (S4.distance p)))))
          (Spec4.localCoord (S4.distance p) (S4.offset3 (S4.distance p)) 3) := by
  rw [← corner4_4_eq]
  exact surflet4_spec _ _

theorem term4_4 (e : Simplex) (p : ℝ × ℝ × ℝ × ℝ) :
    S4.surflet (S4.gi4 e p) (S4.corner5 p)
      = Spec4.contribution
          (gradient.get4 (e.perm_table.get4
            (iadd4 (S4.floored p) (1, 1, 1, 1))))
          (Spec4.localCoord (S4.distance p) (1, 1, 1, 1) 4) := by
  rw [← corner5_4_eq]
  exact surflet4_spec _ _

/-- C1: for each arity and each corner `k`, the evaluator's corner term is
the spec's surflet kernel applied to the local coordinate
`distance - offset_k + k * unskew(n)` (corner 0 being the distance itself)
and to the gradient selected by the permutation table at
`floored + offset_k`. -/
theorem c1_corner_contribution_formula :
    (∀ (e : Simplex) (p : ℝ × ℝ),
      S2.surflet (S2.gi0 e p) (S2.distance p)
        = Spec2.contribution
            (gradient.get2 (e.perm_table.get2 (iadd2 (S2.floored p) (0, 0))))
            (Spec2.localCoord (S2.distance p) (0, 0) 0) ∧
      S2.surflet (S2.gi1 e p) (S2.corner2 p)
        = Spec2.contribution
            (gradient.get2 (e.perm_table.get2
              (iadd2 (S2.floored p) (S2.offsets (S2.distance p)))))
            (Spec2.localCoord (S2.distance p) (S2.offsets (S2.distance p)) 1) ∧
      S2.surflet (S2.gi2 e p) (S2.corner3 p)
        = Spec2.contribution
            (gradient.get2 (e.perm_table.get2 (iadd2 (S2.floored p) (1, 1))))
            (Spec2.localCoord (S2.distance p) (1, 1) 2)) ∧
    (∀ (e : Simplex) (p : ℝ × ℝ × ℝ),
      S3.surflet (S3.gi0 e p) (S3.distance p)
        = Spec3.contribution
            (gradient.get3 (e.perm_table.get3
              (iadd3 (S3.floored p) (0, 0, 0))))
            (Spec3.localCoord (S3.distance p) (0, 0, 0) 0) ∧
      S3.surflet (S3.gi1 e p) (S3.corner2 p)
        = Spec3.contribution
            (gradient.get3 (e.perm_table.get3
              (iadd3 (S3.floored p) (S3.offset1 (S3.distance p)))))
            (Spec3.localCoord (S3.distance p) (S3.offset1 (S3.distance p)) 1) ∧
      S3.surflet (S3.gi2 e p) (S3.corner3 p)
        = Spec3.contribution
            (gradient.get3 (e.perm_table.get3
              (iadd3 (S3.floored p) (S3.offset2 (S3.distance p)))))
            (Spec3.localCoord (S3.distance p) (S3.offset2 (S3.distance p)) 2) ∧
      S3.surflet (S3.gi3 e p) (S3.corner4 p)
        = Spec3.contribution
            (gradient.get3 (e.perm_table.get3
              (iadd3 (S3.floored p) (1, 1, 1))))
            (Spec3.localCoord (S3.distance p) (1, 1, 1) 3)) ∧
    (∀ (e : Simplex) (p : ℝ × ℝ × ℝ × ℝ),
      S4.surflet (S4.gi0 e p) (S4.distance p)
        = Spec4.contribution
            (gradient.get4 (e.perm_table.get4
              (iadd4 (S4.floored p) (0, 0, 0, 0))))
            (Spec4.localCoord (S4.distance p) (0, 0, 0, 0) 0) ∧
      S4.surflet (S4.gi1 e p) (S4.corner2 p)
        = Spec4.contribution
            (gradient.get4 (e.perm_table.get4
              (iadd4 (S4.floored p) (S4.offset1 (S4.distance p)))))
            (Spec4.localCoord (S4.distance p) (S4.offset1 (S4.distance p)) 1) ∧
      S4.surflet (S4.gi2 e p) (S4.corner3 p)
        = Spec4.contribution
            (gradient.get4 (e.perm_table.get4
              (iadd4 (S4.floored p) (S4.offset2 (S4.distance p)))))
            (Spec4.localCoord (S4.distance p) (S4.offset2 (S4.distance p)) 2) ∧
      S4.surflet (S4.gi3 e p) (S4.corner4 p)
        = Spec4.contribution
            (gradient.get4 (e.perm_table.get4
              (iadd4 (S4.floored p) (S4.offset3 (S4.distance p)))))
            (Spec4.localCoord (S4.distance p) (S4.offset3 (S4.distance p)) 3) ∧
      S4.surflet (S4.gi4 e p) (S4.corner5 p)
        = Spec4.contribution
            (gradient.get4 (e.perm_table.get4
              (iadd4 (S4.floored p) (1, 1, 1, 1))))
            (Spec4.localCoord (S4.distance p) (1, 1, 1, 1) 4)) :=
  ⟨fun e p => ⟨term0_2 e p, term1_2 e p, term2_2 e p⟩,
    fun e p => ⟨term0_3 e p, term1_3 e p, term2_3 e p, term3_3 e p⟩,
    fun e p =>
      ⟨term0_4 e p, term1_4 e p, term2_4 e p, term3_4 e p, term4_4 e p⟩⟩

/-- C2: each evaluator returns the sum of its n+1 spec-side corner
contributions multiplied by the per-dimension normalization constant —
70.0 in 2D, 32.0 in 3D, 27.0 in 4D, not swapped between dimensions. -/
theorem c2_normalized_sum :
    (∀ (e : Simplex) (p : ℝ × ℝ),
      S2.get e p = 70 *
        (Spec2.contribution
            (gradient.get2 (e.perm_table.get2 (iadd2 (S2.floored p) (0, 0))))
            (Spec2.localCoord (S2.distance p) (0, 0) 0)
          + Spec2.contribution
              (gradient.get2 (e.perm_table.get2
                (iadd2 (S2.floored p) (S2.offsets (S2.distance p)))))
              (Spec2.localCoord (S2.distance p) (S2.offsets (S2.distance p)) 1)
          + Spec2.contribution
              (gradient.get2 (e.perm_table.get2
                (iadd2 (S2.floored p) (1, 1))))
              (Spec2.localCoord (S2.distance p) (1, 1) 2))) ∧
    (∀ (e : Simplex) (p : ℝ × ℝ × ℝ),
      S3.get e p = 32 *
        (Spec3.contribution
            (gradient.get3 (e.perm_table.get3
              (iadd3 (S3.floored p) (0, 0, 0))))
            (Spec3.localCoord (S3.distance p) (0, 0, 0) 0)
          + Spec3.contribution
              (gradient.get3 (e.perm_table.get3
                (iadd3 (S3.floored p) (S3.offset1 (S3.distance p)))))
              (Spec3.localCoord (S3.distance p) (S3.offset1 (S3.distance p)) 1)
          + Spec3.contribution
              (gradient.get3 (e.perm_table.get3
                (iadd3 (S3.floored p) (S3.offset2 (S3.distance p)))))
              (Spec3.localCoord (S3.distance p) (S3.offset2 (S3.distance p)) 2)
          + Spec3.contribution
              (gradient.get3 (e.perm_table.get3
                (iadd3 (S3.floored p) (1, 1, 1))))
              (Spec3.localCoord (S3.distance p) (1, 1, 1) 3))) ∧
    (∀ (e : Simplex) (p : ℝ × ℝ × ℝ × ℝ),
      S4.get e p = 27 *
        (Spec4.contribution
            (gradient.get4 (e.perm_table.get4
              (iadd4 (S4.floored p) (0, 0, 0, 0))))
            (Spec4.localCoord (S4.distance p) (0, 0, 0, 0) 0)
          + Spec4.contribution
              (gradient.get4 (e.perm_table.get4
                (iadd4 (S4.floored p) (S4.offset1 (S4.distance p)))))
              (Spec4.localCoord (S4.distance p) (S4.offset1 (S4.distance p)) 1)
          + Spec4.contribution
              (gradient.get4 (e.perm_table.get4
                (iadd4 (S4.floored p) (S4.offset2 (S4.distance p)))))
              (Spec4.localCoord (S4.distance p) (S4.offset2 (S4.distance p)) 2)
          + Spec4.contribution
              (gradient.get4 (e.perm_table.get4
                (iadd4 (S4.floored p) (S4.offset3 (S4.distance p)))))
              (Spec4.localCoord (S4.distance p) (S4.offset3 (S4.distance p)) 3)
          + Spec4.contribution
              (gradient.get4 (e.perm_table.get4
                (iadd4 (S4.floored p) (1, 1, 1, 1))))
              (Spec4.localCoord (S4.distance p) (1, 1, 1, 1) 4))) := by
  refine ⟨fun e p => ?_, fun e p => ?_, fun e p => ?_⟩
  · unfold S2.get
    rw [term0_2, term1_2, term2_2]
  · unfold S3.get
    rw [term0_3, term1_3, term2_3, term3_3]
  · unfold S4.get
    rw [term0_4, term1_4, term2_4, term3_4, term4_4]

/-- An in-range index makes the fallible 2D gradient lookup succeed, with the
same vector the total lookup returns. -/
theorem grad2_some (i : ℕ) (h : i < 8) :
    gradient.get2? i = some (gradient.get2 i) := by
  interval_cases i <;> rfl

theorem grad3_some (i : ℕ) (h : i < 12) :
    gradient.get3? i = some (gradient.get3 i) := by
  interval_cases i <;> rfl

theorem grad4_some (i : ℕ) (h : i < 32) :
    gradient.get4? i = some (gradient.get4 i) := by
  interval_cases i <;> rfl

/-- C8: under the permutation-table range invariant, evaluation is total and
panic-free: the fallible evaluator (whose `none` models an out-of-bounds
gradient lookup panic) returns `some` of the total evaluator's value at every
point, in every arity.  (Non-finite IEEE-754 inputs are outside the real
model; the claim's totality and no-panic content is what is proved.) -/
theorem c8_total_no_panic (e : Simplex) (p2 : ℝ × ℝ) (p3 : ℝ × ℝ × ℝ)
    (p4 : ℝ × ℝ × ℝ × ℝ)
    (h2 : ∀ c : ℤ × ℤ, e.perm_table.get2 c < 8)
    (h3 : ∀ c : ℤ × ℤ × ℤ, e.perm_table.get3 c < 12)
    (h4 : ∀ c : ℤ × ℤ × ℤ × ℤ, e.perm_table.get4 c < 32) :
    S2.getChecked e p2 = some (S2.get e p2) ∧
      S3.getChecked e p3 = some (S3.get e p3) ∧
      S4.getChecked e p4 = some (S4.get e p4) := by
  refine ⟨?_, ?_, ?_⟩
  · unfold S2.getChecked
    rw [grad2_some (S2.gi0 e p2) (h2 (S2.floored p2)),
      grad2_some (S2.gi1 e p2)
        (h2 (iadd2 (S2.floored p2) (S2.offsets (S2.distance p2)))),
      grad2_some (S2.gi2 e p2) (h2 (iadd2 (S2.floored p2) (1, 1)))]
    rfl
  · unfold S3.getChecked
    rw [grad3_some (S3.gi0 e p3) (h3 (S3.floored p3)),
      grad3_some (S3.gi1 e p3)
        (h3 (iadd3 (S3.floored p3) (S3.offset1 (S3.distance p3)))),
      grad3_some (S3.gi2 e p3)
        (h3 (iadd3 (S3.floored p3) (S3.offset2 (S3.distance p3)))),
      grad3_some (S3.gi3 e p3) (h3 (iadd3 (S3.floored p3) S3.offset3))]
    rfl
  · unfold S4.getChecked
    rw [grad4_some (S4.gi0 e p4) (h4 (S4.floored p4)),
      grad4_some (S4.gi1 e p4)
        (h4 (iadd4 (S4.floored p4) (S4.offset1 (S4.distance p4)))),
      grad4_some (S4.gi2 e p4)
        (h4 (iadd4 (S4.floored p4) (S4.offset2 (S4.distance p4)))),
      grad4_some (S4.gi3 e p4)
        (h4 (iadd4 (S4.floored p4) (S4.offset3 (S4.distance p4)))),
      grad4_some (S4.gi4 e p4) (h4 (iadd4 (S4.floored p4) S4.offset4))]
    rfl

theorem c8_total_no_panic_witness :
    S2.getChecked Simplex.new (0, 0) = some (S2.get Simplex.new (0, 0)) ∧
      S3.getChecked Simplex.new (0, 0, 0)
        = some (S3.get Simplex.new (0, 0, 0)) ∧
      S4.getChecked Simplex.new (1, 1, 1, 1)
        = some (S4.get Simplex.new (1, 1, 1, 1)) :=
  c8_total_no_panic Simplex.new (0, 0) (0, 0, 0) (1, 1, 1, 1)
    (fun _ => Nat.mod_lt _ (by norm_num))
    (fun _ => Nat.mod_lt _ (by norm_num))
    (fun _ => Nat.mod_lt _ (by norm_num))
